import Mathlib

/-!
Verification development for the repository mirroring script
(src/repository-mirrorer/repo-sync.py).

The Python program drives external effects (git subprocesses and a remote
repository-hosting API).  The shallow embedding below makes each external
call's outcome an explicit input (an environment record); the control flow of
every embedded function is translated line by line from the source.  Python
exceptions are modelled with the `Except` monad: `.error e` is an exception
escaping the function, and each `except` clause of the source becomes an
explicit filter on the exception value.  All functions are modelled with
`dry_run = False` (the claims are about the real execution paths).
-/

deriving instance DecidableEq for Except

namespace RepoSync

/-- Python exception values that the embedded code can raise or catch. -/
inductive PyExc where
  /-- A `NameError`, e.g. from evaluating an unbound module name. -/
  | nameError (msg : String)
  /-- A `TypeError`. -/
  | typeError (msg : String)
  /-- A `ValueError`. -/
  | valueError (msg : String)
  /-- A PyGithub `GithubException` carrying an HTTP status. -/
  | githubException (status : Nat) (msg : String)
  /-- Any other exception type. -/
  | otherError (msg : String)
deriving DecidableEq

/-- Python `str(e)` for the exceptions we model; for `NameError` this is its
message, which is what the claims inspect. -/
def pyStr : PyExc → String
  | PyExc.nameError m => m
  | PyExc.typeError m => m
  | PyExc.valueError m => m
  | PyExc.githubException _ m => m
  | PyExc.otherError m => m

/-- Outcome of one remote-API call: success, a raised `GithubException`
with its HTTP status, or a raised exception of any other type. -/
inductive ApiCall where
  | ok
  | ghFail (status : Nat) (msg : String)
  | otherFail (msg : String)
deriving DecidableEq

/-- A Python dict of settings, as passed to the settings write-back calls
(insertion-ordered key/value pairs; values rendered as strings). -/
structure SettingsDict where
  entries : List (String × String)
deriving DecidableEq

/-- Python `d.get(k)` on a settings dict. -/
def settingsGet (d : SettingsDict) (k : String) : Option String :=
  (d.entries.find? (fun p => p.fst == k)).map (fun p => p.snd)

/-- Result of one external command: `(returncode, stdout, stderr)` as
returned by `_run_command`. -/
structure CmdResult where
  rc : Int
  out : String
  err : String
deriving DecidableEq

/-- `SyncResult` dataclass: result of syncing a single repository to a
target org. -/
structure SyncResult where
  repo_name : String
  target_org : String
  status : String
  message : String
deriving DecidableEq

/-- The nested `actions_settings` dict assembled by `_get_repo_metadata`:
each sub-dict is present (`some`) exactly when the corresponding follow-up
read succeeded and returned a truthy value. -/
structure ActionsSettings where
  actions_permissions : Option SettingsDict
  selected_actions : Option SettingsDict
  workflow_permissions : Option SettingsDict
  workflow_access : Option SettingsDict
deriving DecidableEq

/-- The metadata dict built by `_get_repo_metadata` and consumed by
`_set_repo_metadata` / `sync_repository`.  `description`, `homepage`,
`private` (here `is_private`), `default_branch` and `topics` are always
present keys; the feature/merge/misc settings that the source inserts
behind presence checks (lines 239-262 of the source: `has_issues` ..
`web_commit_signoff_required`) are abstracted as the association list
`optional_settings` holding exactly the present keys with their values. -/
structure Metadata where
  description : String
  homepage : String
  is_private : Bool
  default_branch : String
  topics : List String
  optional_settings : List (String × String)
  actions_settings : Option ActionsSettings
deriving DecidableEq

/-- The `edit_params` dict built by `_set_repo_metadata` (source lines
312-361): `description`, `homepage` and `private` are inserted
unconditionally, then the presence-gated optional settings follow.  It is
therefore never empty. -/
def edit_params (md : Metadata) : SettingsDict :=
  ⟨("description", md.description) :: ("homepage", md.homepage) ::
   ("private", if md.is_private then "True" else "False") :: md.optional_settings⟩

/-- Models evaluating `json.dumps(settings, ...)` inside
`_format_settings_for_log`.  The module imports of the source file (lines
9-18) are argparse, logging, os, subprocess, sys, tempfile, shutil, typing,
dataclasses and pathlib; `json` is never imported, so evaluating the name
`json` raises `NameError("name 'json' is not defined")` before any
serialization happens. -/
def json_dumps (_settings : SettingsDict) (_indent : Bool) : Except PyExc String :=
  Except.error (PyExc.nameError "name \x27json\x27 is not defined")

/-- Python `str(settings)` fallback used by `_format_settings_for_log`
when serialization raises `TypeError`/`ValueError` (rendering detail is
irrelevant to every claim; the point is that a string is returned). -/
def strOfSettings (settings : SettingsDict) : String :=
  String.intercalate ", " (settings.entries.map (fun p => p.fst ++ ": " ++ p.snd))

/-- Embeds `_format_settings_for_log` (source lines 122-147).  Empty
settings short-circuit to the literal `"{}"`.  Otherwise the function
evaluates `json.dumps` inside a `try` whose handler catches only
`TypeError` and `ValueError`; any other exception (in particular the
`NameError` from the unbound `json` name) escapes. -/
def format_settings_for_log (settings : SettingsDict) (indent : Bool) : Except PyExc String :=
  if settings.entries.isEmpty then Except.ok "\x7b\x7d"
  else
    match json_dumps settings indent with
    | Except.ok s => Except.ok s
    | Except.error e =>
      -- `except (TypeError, ValueError) as e:` — only those two types are
      -- caught (fallback returns `str(settings)`); everything else escapes
      match e with
      | PyExc.typeError _ => Except.ok (strOfSettings settings)
      | PyExc.valueError _ => Except.ok (strOfSettings settings)
      | e2 => Except.error e2

/-- Embeds `_set_repo_actions_permissions` (source lines 911-948),
`dry_run = False`.  On success the PUT returns and the function yields
`True`.  On `GithubException` the handler logs the attempted settings via
`_format_settings_for_log`, whose own `NameError` escapes this handler
(it catches only `GithubException`); if that log line evaluates, `False`
is returned.  On any other exception the handler logs without formatting
the settings and returns `False`. -/
def set_repo_actions_permissions (call : ApiCall) (settings : SettingsDict) : Except PyExc Bool :=
  match call with
  | ApiCall.ok => Except.ok true
  | ApiCall.ghFail _ _ =>
    (match format_settings_for_log settings false with
     | Except.error e => Except.error e
     | Except.ok _ => Except.ok false)
  | ApiCall.otherFail _ => Except.ok false

/-- Embeds `_set_repo_actions_selected_actions` (source lines 980-1014);
same exception structure as `set_repo_actions_permissions`. -/
def set_repo_actions_selected_actions (call : ApiCall) (settings : SettingsDict) : Except PyExc Bool :=
  match call with
  | ApiCall.ok => Except.ok true
  | ApiCall.ghFail _ _ =>
    (match format_settings_for_log settings false with
     | Except.error e => Except.error e
     | Except.ok _ => Except.ok false)
  | ApiCall.otherFail _ => Except.ok false

/-- Embeds `_set_repo_workflow_permissions` (source lines 1046-1080);
same exception structure as `set_repo_actions_permissions`. -/
def set_repo_workflow_permissions (call : ApiCall) (settings : SettingsDict) : Except PyExc Bool :=
  match call with
  | ApiCall.ok => Except.ok true
  | ApiCall.ghFail _ _ =>
    (match format_settings_for_log settings false with
     | Except.error e => Except.error e
     | Except.ok _ => Except.ok false)
  | ApiCall.otherFail _ => Except.ok false

/-- Embeds `_set_repo_workflow_access_level` (source lines 1118-1157):
if `settings.get("access_level") == "public"` the PUT is skipped and the
function returns `True`; otherwise same structure as the other setters
(the `GithubException` handler echoes the settings via
`_format_settings_for_log`). -/
def set_repo_workflow_access_level (call : ApiCall) (settings : SettingsDict) : Except PyExc Bool :=
  if settingsGet settings "access_level" = some "public" then Except.ok true
  else
    match call with
    | ApiCall.ok => Except.ok true
    | ApiCall.ghFail _ _ =>
      (match format_settings_for_log settings false with
       | Except.error e => Except.error e
       | Except.ok _ => Except.ok false)
    | ApiCall.otherFail _ => Except.ok false

/-- Outcomes of the remote-API calls that `_set_repo_metadata` makes
against the target repository. -/
structure MetaEnv where
  /-- `github.get_repo(f"org/repo")` at the top of `_set_repo_metadata`. -/
  get_repo : ApiCall
  /-- `repo.edit(**edit_params)` — the basic settings edit. -/
  edit : ApiCall
  /-- `repo.replace_topics(...)`. -/
  replace_topics : ApiCall
  /-- `repo.default_branch` currently set on the target. -/
  current_default_branch : String
  /-- `repo.get_branch(new_default)` followed by
  `repo.edit(default_branch=new_default)` (one combined outcome; both run
  inside one `try` that catches `GithubException`). -/
  default_branch_edit : ApiCall
  /-- The PUT behind `_set_repo_actions_permissions`. -/
  set_actions_permissions : ApiCall
  /-- The PUT behind `_set_repo_actions_selected_actions`. -/
  set_selected_actions : ApiCall
  /-- The PUT behind `_set_repo_workflow_permissions`. -/
  set_workflow_permissions : ApiCall
  /-- The PUT behind `_set_repo_workflow_access_level`. -/
  set_workflow_access : ApiCall
deriving DecidableEq

/-- Embeds `_set_repo_metadata` (source lines 300-472), `dry_run = False`.
Returns the Python return value (`True` iff the basic settings edit
landed in `settings_synced["success"]`), or `.error` for an escaping
exception.  The outer `try` catches only `GithubException`; each failure
branch that echoes the attempted settings evaluates
`_format_settings_for_log`, whose `NameError` is not a `GithubException`
and therefore escapes the whole function. -/
def set_repo_metadata (env : MetaEnv) (md : Metadata) : Except PyExc Bool :=
  match env.get_repo with
  | ApiCall.ghFail _ _ => Except.ok false   -- outer `except GithubException` → return False
  | ApiCall.otherFail m => Except.error (PyExc.otherError m)  -- not caught → escapes
  | ApiCall.ok => do
    let mut succ : List String := []
    -- repository_settings: `repo.edit(**edit_params)`; its handler is
    -- `except Exception`, then the warning echoing `edit_params` runs
    -- `_format_settings_for_log` (which raises `NameError`, escaping)
    match env.edit with
    | ApiCall.ok =>
      succ := succ ++ ["repository_settings"]
    | _ =>
      let _ ← format_settings_for_log (edit_params md) false
    -- topics: handler is `except Exception`; its log lines do not use
    -- `_format_settings_for_log`, so failure is recorded and swallowed
    if !md.topics.isEmpty then
      match env.replace_topics with
      | ApiCall.ok => succ := succ ++ ["topics"]
      | _ => pure ()
    -- default branch: only attempted when it differs from the target's
    -- current one; handler catches `GithubException` only and its log
    -- lines do not use `_format_settings_for_log`
    if env.current_default_branch ≠ md.default_branch then
      match env.default_branch_edit with
      | ApiCall.ok => succ := succ ++ ["default_branch"]
      | ApiCall.ghFail _ _ => pure ()
      | ApiCall.otherFail m => throw (PyExc.otherError m)
    -- GitHub Actions settings
    match md.actions_settings with
    | none => pure ()
    | some acts =>
      match acts.actions_permissions with
      | none => pure ()
      | some s =>
        let ok1 ← set_repo_actions_permissions env.set_actions_permissions s
        if ok1 then
          succ := succ ++ ["actions_permissions"]
        else
          -- the failure warning echoes the attempted settings
          let _ ← format_settings_for_log s false
        -- selected actions: nested inside the actions_permissions branch
        match acts.selected_actions with
        | none => pure ()
        | some s2 =>
          let ok2 ← set_repo_actions_selected_actions env.set_selected_actions s2
          if ok2 then
            succ := succ ++ ["selected_actions"]
          else
            let _ ← format_settings_for_log s2 false
      match acts.workflow_permissions with
      | none => pure ()
      | some s3 =>
        let ok3 ← set_repo_workflow_permissions env.set_workflow_permissions s3
        if ok3 then
          succ := succ ++ ["workflow_permissions"]
        else
          let _ ← format_settings_for_log s3 false
      match acts.workflow_access with
      | none => pure ()
      | some s4 =>
        let ok4 ← set_repo_workflow_access_level env.set_workflow_access s4
        if ok4 then
          succ := succ ++ ["workflow_access"]
        else
          let _ ← format_settings_for_log s4 false
    -- `return 'repository_settings' in settings_synced['success']`
    return succ.contains "repository_settings"

/-- Embeds `_create_repo` (source lines 474-510), `dry_run = False`.  The
`try` wraps `get_organization`, `create_repo` and the subsequent full
`_set_repo_metadata` call (whose boolean result is discarded); the handler
catches only `GithubException`, so a `NameError` escaping
`_set_repo_metadata` escapes `_create_repo` as well. -/
def create_repo (call : ApiCall) (metaEnv : MetaEnv) (md : Metadata) : Except PyExc Bool :=
  match call with
  | ApiCall.ghFail _ _ => Except.ok false
  | ApiCall.otherFail m => Except.error (PyExc.otherError m)
  | ApiCall.ok =>
    match set_repo_metadata metaEnv md with
    | Except.error (PyExc.githubException _ _) => Except.ok false
    | Except.error e => Except.error e
    | Except.ok _ => Except.ok true

/-- Embeds `_repo_exists` (source lines 215-223): `get_repo` success means
`True`; a `GithubException` with status 404 means `False`; any other
`GithubException` is re-raised, and a non-`GithubException` propagates
uncaught. -/
def repo_exists (call : ApiCall) : Except PyExc Bool :=
  match call with
  | ApiCall.ok => Except.ok true
  | ApiCall.ghFail status msg =>
    if status = 404 then Except.ok false
    else Except.error (PyExc.githubException status msg)
  | ApiCall.otherFail m => Except.error (PyExc.otherError m)

/-- The source-repository attributes read by `_get_repo_metadata` from the
primary `get_repo` object (with the presence-gated settings abstracted as
in `Metadata.optional_settings`). -/
structure SourceRepoInfo where
  description : String
  homepage : String
  is_private : Bool
  default_branch : String
  optional_settings : List (String × String)
deriving DecidableEq

/-- Outcomes of the remote reads performed by `_get_repo_metadata`. -/
structure GetMetaEnv where
  /-- `github.get_repo(...)`: `none` models a raised `GithubException`
  (caught by the function's handler). -/
  get_repo : Option SourceRepoInfo
  /-- `repo.get_topics()`: `none` models a raised `GithubException`.  This
  call sits inside the same `try` as the primary read. -/
  get_topics : Option (List String)
  /-- `_get_repo_actions_permissions` result: these four getters catch all
  their own exceptions and return `(False, None)` on failure, so `none`
  models failure-or-falsy and `some` models `(True, truthy-dict)`. -/
  actions_permissions : Option SettingsDict
  /-- `_get_repo_actions_selected_actions` result. -/
  selected_actions : Option SettingsDict
  /-- `_get_repo_workflow_permissions` result. -/
  workflow_permissions : Option SettingsDict
  /-- `_get_repo_workflow_access_level` result. -/
  workflow_access : Option SettingsDict
deriving DecidableEq

/-- True when the assembled `actions_settings` dict would be empty (no
sub-setting retrieved), in which case `_get_repo_metadata` omits the
`actions_settings` key entirely. -/
def actionsSettingsEmpty (a : ActionsSettings) : Bool :=
  a.actions_permissions.isNone && a.selected_actions.isNone &&
  a.workflow_permissions.isNone && a.workflow_access.isNone

/-- Embeds `_get_repo_metadata` (source lines 225-298).  `none` models the
empty dict `{}` returned by the `except GithubException` handler.  Both
the primary `get_repo` call and the `repo.get_topics()` call sit inside
that `try`, so either raising yields the empty result; failures of the
four Actions getters merely omit their sub-field. -/
def get_repo_metadata (env : GetMetaEnv) : Option Metadata :=
  match env.get_repo with
  | none => none
  | some info =>
    match env.get_topics with
    | none => none
    | some ts =>
      let perms := env.actions_permissions
      -- selected actions are fetched only when the permissions read
      -- succeeded and reported `allowed_actions == "selected"`
      let selected :=
        match perms with
        | some p =>
          if settingsGet p "allowed_actions" = some "selected" then env.selected_actions
          else none
        | none => none
      let acts : ActionsSettings :=
        ⟨perms, selected, env.workflow_permissions, env.workflow_access⟩
      some
        { description := info.description
          homepage := info.homepage
          is_private := info.is_private
          default_branch := info.default_branch
          topics := ts
          optional_settings := info.optional_settings
          actions_settings := if actionsSettingsEmpty acts then none else some acts }

/-- Python `str.replace` (leftmost, non-overlapping, every occurrence),
modelled on character lists with a fuel argument so that the recursion is
structural and concrete instances compute.  The fuel is the remaining
input length, which each step strictly decreases, so with initial fuel
`s.length` it never runs out before the input does. -/
def pyReplaceFuel (p : Char) (ps rep : List Char) : Nat → List Char → List Char
  | 0, s => s
  | _ + 1, [] => []
  | fuel + 1, c :: rest =>
    if (p :: ps).isPrefixOf (c :: rest) then
      rep ++ pyReplaceFuel p ps rep fuel (rest.drop ps.length)
    else
      c :: pyReplaceFuel p ps rep fuel rest

/-- Python `s.replace(pat, rep)`.  Every call site in the source passes a
fixed non-empty literal pattern, so the empty-pattern corner of Python's
semantics is irrelevant and mapped to the identity. -/
def pyReplace (s pat rep : String) : String :=
  match pat.data with
  | [] => s
  | p :: ps => ⟨pyReplaceFuel p ps rep.data s.data.length s.data⟩

/-- Python `s.startswith(p)`. -/
def pyStartsWith (s p : String) : Bool :=
  p.data.isPrefixOf s.data

/-- Embeds `_get_auth_url` (source lines 204-213): an SSH-style URL is
first rewritten to HTTPS, then every occurrence of `https://` gains the
token as userinfo. -/
def get_auth_url (token repo_url : String) : String :=
  let url :=
    if pyStartsWith repo_url "git@" then
      pyReplace repo_url "git@github.com:" "https://github.com/"
    else repo_url
  pyReplace url "https://" ("https://" ++ token ++ "@")

/-- The line `_run_command` echoes to the debug log before spawning the
process (source line 189): the raw arguments joined by single spaces. -/
def run_command_log (cmd : List String) : String :=
  "Running: " ++ String.intercalate " " cmd

/-- The clone invocation built by `_mirror_clone` (source lines 512-524). -/
def mirror_clone_cmd (token source_org repo_name default_branch mirror_path : String) :
    List String :=
  ["git", "clone", "--bare", "--single-branch", "--branch", default_branch,
   get_auth_url token ("https://github.com/" ++ source_org ++ "/" ++ repo_name ++ ".git"),
   mirror_path]

/-- The branch-push invocation built by `_push_mirror` (source lines
542-556). -/
def push_branch_cmd (token target_org repo_name default_branch : String) : List String :=
  ["git", "push",
   get_auth_url token ("https://github.com/" ++ target_org ++ "/" ++ repo_name ++ ".git"),
   default_branch]

/-- The remote-add invocation built by `_can_fast_forward` (source lines
584-589). -/
def remote_add_cmd (token target_org repo_name : String) : List String :=
  ["git", "remote", "add", "target",
   get_auth_url token ("https://github.com/" ++ target_org ++ "/" ++ repo_name ++ ".git")]

/-- Outcomes of the two commands run by `_mirror_clone`. -/
structure CloneEnv where
  /-- The `git clone --bare --single-branch ...` invocation. -/
  clone : CmdResult
  /-- The subsequent `git fetch origin refs/tags/*:refs/tags/*`. -/
  fetch_tags : CmdResult
deriving DecidableEq

/-- Embeds `_mirror_clone` (source lines 512-540): clone failure is fatal
(`False`); tag-fetch failure is only a warning. -/
def mirror_clone (env : CloneEnv) : Bool :=
  if env.clone.rc ≠ 0 then false else true

/-- Outcomes of the two commands run by `_push_mirror`. -/
structure PushEnv where
  /-- The `git push <auth-url> <default_branch>` invocation. -/
  push_branch : CmdResult
  /-- The subsequent `git push <auth-url> refs/tags/*:refs/tags/*`. -/
  push_tags : CmdResult
deriving DecidableEq

/-- Embeds `_push_mirror` (source lines 542-573), `dry_run = False`:
branch-push failure is fatal (`False`); tag-push failure is only a
warning. -/
def push_mirror (env : PushEnv) : Bool :=
  if env.push_branch.rc ≠ 0 then false else true

/-- Outcomes of the three commands run by `_can_fast_forward`. -/
structure FFEnv where
  /-- `git remote add target <auth-url>`. -/
  remote_add : CmdResult
  /-- `git fetch target`. -/
  fetch_target : CmdResult
  /-- `git merge-base --is-ancestor target/<branch> <branch>`. -/
  merge_base : CmdResult
deriving DecidableEq

/-- Embeds `_can_fast_forward` (source lines 575-613): returns
`(can_ff, message)`.  Exit code 0 of the ancestor query confirms the
fast-forward; exit code 1 is the explicit negative answer; every other
command failure also yields `False` with a diagnostic message. -/
def can_fast_forward (env : FFEnv) : Bool × String :=
  if env.remote_add.rc ≠ 0 then
    (false, "Failed to add target remote: " ++ env.remote_add.err)
  else if env.fetch_target.rc ≠ 0 then
    (false, "Failed to fetch from target: " ++ env.fetch_target.err)
  else if env.merge_base.rc = 0 then
    (true, "Can fast-forward")
  else if env.merge_base.rc = 1 then
    (false, "Target has diverged from source (cannot fast-forward)")
  else
    (false, "Failed to check ancestry: " ++ env.merge_base.err)

/-- The externally visible steps a run of `sync_repository` performs, in
execution order, used to state which operations were attempted. -/
inductive Step where
  | get_source_metadata
  | check_target_exists
  | make_workspace
  | mirror_clone
  | create_target
  | ancestry_check
  | push_mirror
  | sync_metadata
  | remove_workspace
deriving DecidableEq

/-- All external outcomes one `sync_repository` call can observe. -/
structure SyncEnv where
  /-- Outcomes of the source-metadata read (`_get_repo_metadata`). -/
  source : GetMetaEnv
  /-- The `get_repo` call inside `_repo_exists` on the target. -/
  target_get : ApiCall
  /-- Outcomes of `_mirror_clone`. -/
  clone : CloneEnv
  /-- The `get_organization` + `create_repo` calls of `_create_repo`
  (one combined outcome; both run inside one `try`). -/
  create : ApiCall
  /-- Outcomes of `_push_mirror`. -/
  push : PushEnv
  /-- Outcomes of the three commands of `_can_fast_forward`. -/
  ff : FFEnv
  /-- Outcomes of the metadata write-back against the target
  (`_set_repo_metadata`, also invoked from inside `_create_repo`). -/
  meta : MetaEnv
deriving DecidableEq

/-- A run of `sync_repository`: its outcome (`.error e` models an
exception escaping the function) and the ordered trace of attempted
steps. -/
structure SyncRun where
  outcome : Except PyExc SyncResult
  trace : List Step

/-- The status of a completed run, `none` when the run escaped with an
exception. -/
def runStatus (run : SyncRun) : Option String :=
  match run.outcome with
  | Except.ok r => some r.status
  | Except.error _ => none

/-- The body of the `try` block of `sync_repository` (source lines
1193-1273): clone from source first, then branch on target existence.
Inside `_create_repo` the full `_set_repo_metadata` runs a first time;
the explicit metadata step at lines 1223/1249 runs it again with the same
arguments (same modelled outcomes). -/
def sync_try_body (env : SyncEnv) (repo_name target_org : String)
    (md : Metadata) (target_exists : Bool) : Except PyExc SyncResult × List Step :=
  if !mirror_clone env.clone then
    (Except.ok ⟨repo_name, target_org, "error", "Failed to mirror clone from source"⟩,
     [Step.mirror_clone])
  else if !target_exists then
    match create_repo env.create env.meta md with
    | Except.error e => (Except.error e, [Step.mirror_clone, Step.create_target])
    | Except.ok false =>
      (Except.ok ⟨repo_name, target_org, "error", "Failed to create repository in target org"⟩,
       [Step.mirror_clone, Step.create_target])
    | Except.ok true =>
      if !push_mirror env.push then
        (Except.ok ⟨repo_name, target_org, "error", "Failed to push to target"⟩,
         [Step.mirror_clone, Step.create_target, Step.push_mirror])
      else
        match set_repo_metadata env.meta md with
        | Except.error e =>
          (Except.error e,
           [Step.mirror_clone, Step.create_target, Step.push_mirror, Step.sync_metadata])
        | Except.ok _ =>
          (Except.ok ⟨repo_name, target_org, "created",
             "Repository created and mirrored successfully"⟩,
           [Step.mirror_clone, Step.create_target, Step.push_mirror, Step.sync_metadata])
  else
    let r := can_fast_forward env.ff
    if r.fst then
      if !push_mirror env.push then
        (Except.ok ⟨repo_name, target_org, "error", "Failed to push updates to target"⟩,
         [Step.mirror_clone, Step.ancestry_check, Step.push_mirror])
      else
        match set_repo_metadata env.meta md with
        | Except.error e =>
          (Except.error e,
           [Step.mirror_clone, Step.ancestry_check, Step.push_mirror, Step.sync_metadata])
        | Except.ok _ =>
          (Except.ok ⟨repo_name, target_org, "updated", "Repository updated successfully"⟩,
           [Step.mirror_clone, Step.ancestry_check, Step.push_mirror, Step.sync_metadata])
    else
      (Except.ok ⟨repo_name, target_org, "skipped", "Skipped: " ++ r.snd⟩,
       [Step.mirror_clone, Step.ancestry_check])

/-- Embeds `sync_repository` (source lines 1159-1280).  The source
metadata read, the default-branch extraction and the target-existence
check all happen before the workspace (`tempfile.mkdtemp`) is created and
before the `try`/`except Exception`/`finally` region; an exception from
`_repo_exists` therefore escapes the function.  Inside the region, any
escaping exception becomes an `error` result and the `finally` step
removes the workspace exactly once. -/
def sync_repository (env : SyncEnv) (repo_name target_org : String) : SyncRun :=
  match get_repo_metadata env.source with
  | none =>
    ⟨Except.ok ⟨repo_name, target_org, "error", "Failed to get source metadata"⟩,
     [Step.get_source_metadata]⟩
  | some md =>
    -- `default_branch = source_metadata.get('default_branch'); if not default_branch:`
    if md.default_branch = "" then
      ⟨Except.ok ⟨repo_name, target_org, "error",
         "Failed to get default branch from source metadata"⟩,
       [Step.get_source_metadata]⟩
    else
      match repo_exists env.target_get with
      | Except.error e =>
        ⟨Except.error e, [Step.get_source_metadata, Step.check_target_exists]⟩
      | Except.ok target_exists =>
        let body := sync_try_body env repo_name target_org md target_exists
        let outcome : Except PyExc SyncResult :=
          match body.fst with
          | Except.ok r => Except.ok r
          | Except.error e =>
            Except.ok ⟨repo_name, target_org, "error", "Unexpected error: " ++ pyStr e⟩
        ⟨outcome,
         [Step.get_source_metadata, Step.check_target_exists, Step.make_workspace]
           ++ body.snd ++ [Step.remove_workspace]⟩

/-- A parsed YAML value as far as `load_config` inspects one: a string, a
list (element contents never validated, so we keep them as strings), or
anything else. -/
inductive YamlVal where
  | str (s : String)
  | list (xs : List String)
  | other
deriving DecidableEq

/-- The mapping loaded by `yaml.safe_load`, restricted to the three keys
`load_config` reads (`none` = key missing). -/
structure RawConfig where
  source_org : Option YamlVal
  target_orgs : Option YamlVal
  repositories : Option YamlVal
deriving DecidableEq

/-- The `Config` dataclass.  Python never checks that `source_org` is a
string, so the field keeps whatever value the mapping held. -/
structure Config where
  source_org : YamlVal
  target_orgs : List String
  repositories : List String
deriving DecidableEq

/-- Embeds `load_config` (source lines 149-185) after a successful YAML
parse: presence of the three required keys is checked first (in order),
then that `target_orgs` and `repositories` are lists; `.error` models the
`sys.exit(1)` paths with the logged message.  No emptiness check exists:
empty lists pass validation. -/
def load_config (data : RawConfig) : Except String Config :=
  match data.source_org, data.target_orgs, data.repositories with
  | none, _, _ => Except.error "Missing required field in config: source_org"
  | some _, none, _ => Except.error "Missing required field in config: target_orgs"
  | some _, some _, none => Except.error "Missing required field in config: repositories"
  | some so, some tv, some rv =>
    match tv with
    | YamlVal.list tos =>
      (match rv with
       | YamlVal.list repos => Except.ok ⟨so, tos, repos⟩
       | _ => Except.error "\x27repositories\x27 must be a list")
    | _ => Except.error "\x27target_orgs\x27 must be a list"

/-- The inner loop of `sync_all` (source lines 1342-1381): one repository
against every target org, in configured order.  An exception escaping
`sync_repository` is not caught anywhere in the loop, so it aborts the
whole enumeration. -/
def sync_org_loop (envOf : String → String → SyncEnv) (repo : String) :
    List String → Except PyExc (List SyncResult)
  | [] => Except.ok []
  | org :: rest =>
    match (sync_repository (envOf repo org) repo org).outcome with
    | Except.error e => Except.error e
    | Except.ok r =>
      match sync_org_loop envOf repo rest with
      | Except.error e => Except.error e
      | Except.ok rs => Except.ok (r :: rs)

/-- The outer loop of `sync_all` over the configured repositories. -/
def sync_repo_loop (envOf : String → String → SyncEnv) :
    List String → List String → Except PyExc (List SyncResult)
  | [], _ => Except.ok []
  | repo :: rest, orgs =>
    match sync_org_loop envOf repo orgs with
    | Except.error e => Except.error e
    | Except.ok rs =>
      match sync_repo_loop envOf rest orgs with
      | Except.error e => Except.error e
      | Except.ok more => Except.ok (rs ++ more)

/-- Embeds `sync_all` (source lines 1282-1401): the nested loops over
`repositories × target_orgs` accumulating one `SyncResult` per pair.  The
pre-flight permission verification and every Slack notification call are
wrapped in their own `try/except` blocks in the source and neither alter
nor abort the result accumulation, so they are not modelled.  `envOf`
supplies the external outcomes each pair observes. -/
def sync_all (envOf : String → String → SyncEnv) (cfg : Config) :
    Except PyExc (List SyncResult) :=
  sync_repo_loop envOf cfg.repositories cfg.target_orgs

/-- Specification-side description of the batch result order: outer loop
over repositories, inner loop over target orgs, one record per pair. -/
def pair_results (f : String → String → SyncResult) :
    List String → List String → List SyncResult
  | [], _ => []
  | repo :: rest, orgs => orgs.map (f repo) ++ pair_results f rest orgs

/-! ### Concrete fixtures

Explicit environments used to instantiate the theorems below on concrete
inputs. -/

/-- A successful command outcome. -/
def okCmd : CmdResult := ⟨0, "", ""⟩

/-- A healthy source repository with default branch `main`. -/
def demoInfo : SourceRepoInfo :=
  ⟨"demo repository", "", false, "main", [("has_issues", "True")]⟩

/-- A fully successful source-metadata read. -/
def demoSrcEnv : GetMetaEnv :=
  ⟨some demoInfo, some ["v1"],
   some ⟨[("enabled", "true"), ("allowed_actions", "all")]⟩, none, none, none⟩

/-- The metadata value `get_repo_metadata demoSrcEnv` produces. -/
def demoMd : Metadata :=
  ⟨"demo repository", "", false, "main", ["v1"], [("has_issues", "True")],
   some ⟨some ⟨[("enabled", "true"), ("allowed_actions", "all")]⟩, none, none, none⟩⟩

/-- A metadata write-back in which every call succeeds and the target's
default branch already matches. -/
def allOkMetaEnv : MetaEnv :=
  ⟨ApiCall.ok, ApiCall.ok, ApiCall.ok, "main", ApiCall.ok,
   ApiCall.ok, ApiCall.ok, ApiCall.ok, ApiCall.ok⟩

/-- A pair whose target exists and where every external step succeeds. -/
def allOkEnv : SyncEnv :=
  ⟨demoSrcEnv, ApiCall.ok, ⟨okCmd, okCmd⟩, ApiCall.ok, ⟨okCmd, okCmd⟩,
   ⟨okCmd, okCmd, okCmd⟩, allOkMetaEnv⟩

/-- The C5 failing environment: source read fine, target exists, clone /
ancestry / push all succeed, the basic repository edit succeeds, but the
Actions-permissions PUT answers 403. -/
def actions403MetaEnv : MetaEnv :=
  ⟨ApiCall.ok, ApiCall.ok, ApiCall.ok, "main", ApiCall.ok,
   ApiCall.ghFail 403 "Forbidden", ApiCall.ok, ApiCall.ok, ApiCall.ok⟩

/-- See `actions403MetaEnv`. -/
def actions403Env : SyncEnv :=
  ⟨demoSrcEnv, ApiCall.ok, ⟨okCmd, okCmd⟩, ApiCall.ok, ⟨okCmd, okCmd⟩,
   ⟨okCmd, okCmd, okCmd⟩, actions403MetaEnv⟩

/-- A pair whose target exists but where `git fetch target` fails inside
the ancestry check. -/
def fetchFailEnv : SyncEnv :=
  ⟨demoSrcEnv, ApiCall.ok, ⟨okCmd, okCmd⟩, ApiCall.ok, ⟨okCmd, okCmd⟩,
   ⟨okCmd, ⟨1, "", "network unreachable"⟩, okCmd⟩, allOkMetaEnv⟩

/-- A pair whose target does not exist (404) and whose mirror clone from
the source fails. -/
def notExistsCloneFailEnv : SyncEnv :=
  ⟨demoSrcEnv, ApiCall.ghFail 404 "Not Found",
   ⟨⟨128, "", "fatal: could not read from remote repository"⟩, okCmd⟩,
   ApiCall.ok, ⟨okCmd, okCmd⟩, ⟨okCmd, okCmd, okCmd⟩, allOkMetaEnv⟩

/-- A pair whose target does not exist (404) and where every external
step succeeds. -/
def notExistsAllOkEnv : SyncEnv :=
  ⟨demoSrcEnv, ApiCall.ghFail 404 "Not Found", ⟨okCmd, okCmd⟩, ApiCall.ok,
   ⟨okCmd, okCmd⟩, ⟨okCmd, okCmd, okCmd⟩, allOkMetaEnv⟩

/-- A pair whose source-metadata read raises (primary `get_repo` call
fails with a `GithubException`). -/
def srcFailEnv : SyncEnv :=
  ⟨⟨none, none, none, none, none, none⟩, ApiCall.ok, ⟨okCmd, okCmd⟩, ApiCall.ok,
   ⟨okCmd, okCmd⟩, ⟨okCmd, okCmd, okCmd⟩, allOkMetaEnv⟩

/-- A pair whose target-existence check raises a non-404
`GithubException` (e.g. a rate limit), which `_repo_exists` re-raises. -/
def existsRaiseEnv : SyncEnv :=
  ⟨demoSrcEnv, ApiCall.ghFail 403 "API rate limit exceeded", ⟨okCmd, okCmd⟩,
   ApiCall.ok, ⟨okCmd, okCmd⟩, ⟨okCmd, okCmd, okCmd⟩, allOkMetaEnv⟩

/-- A pair whose target exists but has diverged: the ancestor query exits
with code 1. -/
def divergedEnv : SyncEnv :=
  ⟨demoSrcEnv, ApiCall.ok, ⟨okCmd, okCmd⟩, ApiCall.ok, ⟨okCmd, okCmd⟩,
   ⟨okCmd, okCmd, ⟨1, "", ""⟩⟩, allOkMetaEnv⟩

/-! ### Claim C10 -/

/-- C10: for every non-empty settings dictionary,
`_format_settings_for_log` raises an unhandled `NameError` instead of
returning a formatted string (it evaluates `json.dumps` while `json` is
never imported and its fallback handler catches only `TypeError` and
`ValueError`); consequently the write-back paths that echo the attempted
settings after a sub-group failure (e.g. the `GithubException` handlers
of the Actions-permissions and workflow-permissions setters) raise
instead of logging. -/
theorem format_settings_raises_name_error (settings : SettingsDict) (indent : Bool)
    (h : settings.entries ≠ []) :
    format_settings_for_log settings indent =
      Except.error (PyExc.nameError "name \x27json\x27 is not defined")
    ∧ (∀ status msg, set_repo_actions_permissions (ApiCall.ghFail status msg) settings =
        Except.error (PyExc.nameError "name \x27json\x27 is not defined"))
    ∧ (∀ status msg, set_repo_workflow_permissions (ApiCall.ghFail status msg) settings =
        Except.error (PyExc.nameError "name \x27json\x27 is not defined")) := by
  have hfmt : ∀ b : Bool, format_settings_for_log settings b =
      Except.error (PyExc.nameError "name \x27json\x27 is not defined") := by
    intro b
    unfold format_settings_for_log json_dumps
    simp [h]
  refine ⟨hfmt indent, ?_, ?_⟩
  · intro status msg
    simp [set_repo_actions_permissions, hfmt]
  · intro status msg
    simp [set_repo_workflow_permissions, hfmt]

/-- Witness for C10 at the concrete dictionary
`{"enabled": "true"}`. -/
theorem format_settings_raises_name_error_witness :
    format_settings_for_log ⟨[("enabled", "true")]⟩ false =
      Except.error (PyExc.nameError "name \x27json\x27 is not defined") :=
  (format_settings_raises_name_error ⟨[("enabled", "true")]⟩ false (by decide)).1

/-! ### Claim C5 -/

/-- C5 (failing-input evaluation): with the basic settings edit and the
mirror push both succeeding, a 403 on the Actions-permissions sub-group
does NOT leave the pair's status at `updated`: the `NameError` raised by
`_format_settings_for_log` while logging the failure escapes
`_set_repo_metadata` and is converted by `sync_repository` into
`status = "error"`, contradicting the claim (which matches the code's
evident intent, the missing `import json` being the slip). -/
theorem sync_error_on_actions_permissions_403 :
    (sync_repository actions403Env "widgets" "target-org").outcome =
      Except.ok ⟨"widgets", "target-org", "error",
        "Unexpected error: name \x27json\x27 is not defined"⟩
    ∧ Step.push_mirror ∈ (sync_repository actions403Env "widgets" "target-org").trace
    ∧ push_mirror actions403Env.push = true
    ∧ actions403Env.meta.edit = ApiCall.ok
    ∧ actions403Env.meta.set_actions_permissions = ApiCall.ghFail 403 "Forbidden" := by
  decide

/-! ### Claim C3 -/

/-- C3 counterexample: a configuration with an empty `repositories` list
(or an empty `target_orgs` list) passes validation and `load_config`
returns a `Config`, contradicting the claim that loading fails unless
both sequences are non-empty. -/
theorem load_config_accepts_empty_sequences :
    load_config ⟨some (YamlVal.str "acme"), some (YamlVal.list ["target-a"]),
        some (YamlVal.list [])⟩ =
      Except.ok ⟨YamlVal.str "acme", ["target-a"], []⟩
    ∧ load_config ⟨some (YamlVal.str "acme"), some (YamlVal.list []),
        some (YamlVal.list ["repo-a"])⟩ =
      Except.ok ⟨YamlVal.str "acme", [], ["repo-a"]⟩ := by
  decide

/-- C3 amended: `load_config` fails fast exactly when a required field is
missing or `target_orgs`/`repositories` is not a list; it performs no
emptiness check, so it returns a `Config` for every configuration whose
three fields are present with the two sequences being lists, empty or
not. -/
theorem load_config_success_iff (data : RawConfig) :
    (∃ c, load_config data = Except.ok c) ↔
      (data.source_org.isSome
        ∧ (∃ tos, data.target_orgs = some (YamlVal.list tos))
        ∧ (∃ repos, data.repositories = some (YamlVal.list repos))) := by
  rcases data with ⟨so, tv, rv⟩
  cases so with
  | none => simp [load_config]
  | some sov =>
    cases tv with
    | none => simp [load_config]
    | some tov =>
      cases rv with
      | none => simp [load_config]
      | some rev => cases tov <;> cases rev <;> simp [load_config]

/-! ### Helper lemmas shared by several claims -/

/-- `_can_fast_forward` answers `True` exactly when remote-add, fetch and
the ancestor query all exit with code 0. -/
theorem can_fast_forward_fst_iff (env : FFEnv) :
    (can_fast_forward env).fst = true ↔
      (env.remote_add.rc = 0 ∧ env.fetch_target.rc = 0 ∧ env.merge_base.rc = 0) := by
  unfold can_fast_forward
  by_cases h1 : env.remote_add.rc = 0 <;>
    by_cases h2 : env.fetch_target.rc = 0 <;>
      by_cases h3 : env.merge_base.rc = 0 <;>
        by_cases h4 : env.merge_base.rc = 1 <;>
          simp [h1, h2, h3, h4]

/-- Normal form of `sync_repository` once the source-metadata read and
the target-existence check have both completed. -/
theorem sync_repository_reached (env : SyncEnv) (r t : String) (md : Metadata) (b : Bool)
    (hmd : get_repo_metadata env.source = some md)
    (hdb : md.default_branch ≠ "")
    (hex : repo_exists env.target_get = Except.ok b) :
    sync_repository env r t =
      ⟨match (sync_try_body env r t md b).fst with
        | Except.ok x => Except.ok x
        | Except.error e => Except.ok ⟨r, t, "error", "Unexpected error: " ++ pyStr e⟩,
       [Step.get_source_metadata, Step.check_target_exists, Step.make_workspace]
         ++ (sync_try_body env r t md b).snd ++ [Step.remove_workspace]⟩ := by
  unfold sync_repository
  rw [hmd, hex]
  simp [hdb]

/-- The try-block body never performs the workspace steps itself. -/
theorem sync_try_body_no_workspace_steps (env : SyncEnv) (r t : String)
    (md : Metadata) (te : Bool) :
    Step.make_workspace ∉ (sync_try_body env r t md te).snd
    ∧ Step.remove_workspace ∉ (sync_try_body env r t md te).snd := by
  unfold sync_try_body
  by_cases hc : mirror_clone env.clone
  · cases te
    · rcases hcr : create_repo env.create env.meta md with e | b
      · simp [hc, hcr]
      · cases b
        · simp [hc, hcr]
        · by_cases hp : push_mirror env.push
          · rcases hs : set_repo_metadata env.meta md with e2 | b2 <;> simp [hc, hcr, hp, hs]
          · simp [hc, hcr, hp]
    · by_cases hff : (can_fast_forward env.ff).fst
      · by_cases hp : push_mirror env.push
        · rcases hs : set_repo_metadata env.meta md with e2 | b2 <;> simp [hc, hff, hp, hs]
        · simp [hc, hff, hp]
      · simp [hc, hff]
  · simp [hc]

/-! ### Claim C1 -/

/-- C1: for a pair whose target repository exists (and whose sync reached
the decision point: metadata read fine, non-empty default branch, clone
succeeded), the push is attempted if and only if the ancestry check
confirmed the target tip as an ancestor of the source tip — which holds
exactly when remote-add, fetch and `git merge-base --is-ancestor` all
exited 0; and whenever the check does not confirm (in particular on the
explicit negative answer, exit code 1), the result has status `skipped`
and the push step is never executed. -/
theorem push_iff_fast_forward (env : SyncEnv) (r t : String) (md : Metadata)
    (hmd : get_repo_metadata env.source = some md)
    (hdb : md.default_branch ≠ "")
    (hex : repo_exists env.target_get = Except.ok true)
    (hclone : mirror_clone env.clone = true) :
    (Step.push_mirror ∈ (sync_repository env r t).trace ↔
      (can_fast_forward env.ff).fst = true)
    ∧ ((can_fast_forward env.ff).fst = true ↔
        (env.ff.remote_add.rc = 0 ∧ env.ff.fetch_target.rc = 0 ∧ env.ff.merge_base.rc = 0))
    ∧ ((can_fast_forward env.ff).fst = false →
        runStatus (sync_repository env r t) = some "skipped"
        ∧ Step.push_mirror ∉ (sync_repository env r t).trace) := by
  have hrw := sync_repository_reached env r t md true hmd hdb hex
  rw [hrw]
  refine ⟨?_, can_fast_forward_fst_iff env.ff, ?_⟩
  · by_cases hff : (can_fast_forward env.ff).fst
    · by_cases hp : push_mirror env.push
      · rcases hs : set_repo_metadata env.meta md with e | b <;>
          simp [sync_try_body, hclone, hff, hp, hs]
      · simp [sync_try_body, hclone, hff, hp]
    · simp [sync_try_body, hclone, hff]
  · intro hff
    simp [sync_try_body, hclone, hff, runStatus]

/-- Witness for C1: with the target existing and every git step healthy,
the hypotheses hold and the push is attempted with the check confirmed. -/
theorem push_iff_fast_forward_witness :
    (Step.push_mirror ∈ (sync_repository allOkEnv "widgets" "target-org").trace ↔
      (can_fast_forward allOkEnv.ff).fst = true)
    ∧ ((can_fast_forward allOkEnv.ff).fst = true ↔
        (allOkEnv.ff.remote_add.rc = 0 ∧ allOkEnv.ff.fetch_target.rc = 0
          ∧ allOkEnv.ff.merge_base.rc = 0))
    ∧ ((can_fast_forward allOkEnv.ff).fst = false →
        runStatus (sync_repository allOkEnv "widgets" "target-org") = some "skipped"
        ∧ Step.push_mirror ∉ (sync_repository allOkEnv "widgets" "target-org").trace) :=
  push_iff_fast_forward allOkEnv "widgets" "target-org" demoMd
    (by decide) (by decide) (by decide) (by decide)

/-! ### Claim C2 -/

/-- C2 counterexample: a fetch failure during the ancestry check (a tool
failure, not a negative ancestry answer) yields status `skipped`, not
`error`, contradicting the claim that such failures are propagated as
errors. -/
theorem ancestry_tool_failure_not_error :
    (sync_repository fetchFailEnv "widgets" "target-org").outcome =
      Except.ok ⟨"widgets", "target-org", "skipped",
        "Skipped: " ++ ("Failed to fetch from target: " ++ "network unreachable")⟩
    ∧ runStatus (sync_repository fetchFailEnv "widgets" "target-org") ≠ some "error" := by
  decide

/-- C2 amended: for a pair whose target exists (sync having reached the
ancestry check), every non-confirming outcome of the check — remote-add
failure, fetch failure, the explicit negative answer (exit 1), or any
other ancestor-query exit code — produces status `skipped`; the kinds are
distinguished only in the message carried by the result, never escalated
to status `error`. -/
theorem ancestry_failures_all_skipped (env : SyncEnv) (r t : String) (md : Metadata)
    (hmd : get_repo_metadata env.source = some md)
    (hdb : md.default_branch ≠ "")
    (hex : repo_exists env.target_get = Except.ok true)
    (hclone : mirror_clone env.clone = true) :
    (env.ff.remote_add.rc ≠ 0 →
      (sync_repository env r t).outcome = Except.ok ⟨r, t, "skipped",
        "Skipped: " ++ ("Failed to add target remote: " ++ env.ff.remote_add.err)⟩)
    ∧ (env.ff.remote_add.rc = 0 → env.ff.fetch_target.rc ≠ 0 →
      (sync_repository env r t).outcome = Except.ok ⟨r, t, "skipped",
        "Skipped: " ++ ("Failed to fetch from target: " ++ env.ff.fetch_target.err)⟩)
    ∧ (env.ff.remote_add.rc = 0 → env.ff.fetch_target.rc = 0 → env.ff.merge_base.rc = 1 →
      (sync_repository env r t).outcome = Except.ok ⟨r, t, "skipped",
        "Skipped: " ++ "Target has diverged from source (cannot fast-forward)"⟩)
    ∧ (env.ff.remote_add.rc = 0 → env.ff.fetch_target.rc = 0 →
        env.ff.merge_base.rc ≠ 0 → env.ff.merge_base.rc ≠ 1 →
      (sync_repository env r t).outcome = Except.ok ⟨r, t, "skipped",
        "Skipped: " ++ ("Failed to check ancestry: " ++ env.ff.merge_base.err)⟩) := by
  have hrw := sync_repository_reached env r t md true hmd hdb hex
  rw [hrw]
  refine ⟨?_, ?_, ?_, ?_⟩
  · intro h1
    have hcf : can_fast_forward env.ff =
        (false, "Failed to add target remote: " ++ env.ff.remote_add.err) := by
      unfold can_fast_forward
      simp [h1]
    simp [sync_try_body, hclone, hcf]
  · intro h1 h2
    have hcf : can_fast_forward env.ff =
        (false, "Failed to fetch from target: " ++ env.ff.fetch_target.err) := by
      unfold can_fast_forward
      simp [h1, h2]
    simp [sync_try_body, hclone, hcf]
  · intro h1 h2 h3
    have hcf : can_fast_forward env.ff =
        (false, "Target has diverged from source (cannot fast-forward)") := by
      unfold can_fast_forward
      simp [h1, h2, h3]
    simp [sync_try_body, hclone, hcf]
  · intro h1 h2 h3 h4
    have hcf : can_fast_forward env.ff =
        (false, "Failed to check ancestry: " ++ env.ff.merge_base.err) := by
      unfold can_fast_forward
      simp [h1, h2, h3, h4]
    simp [sync_try_body, hclone, hcf]

/-- Witness for C2 amended at a diverged target (ancestor query exits
1). -/
theorem ancestry_failures_all_skipped_witness :
    (sync_repository divergedEnv "widgets" "target-org").outcome =
      Except.ok ⟨"widgets", "target-org", "skipped",
        "Skipped: " ++ "Target has diverged from source (cannot fast-forward)"⟩ :=
  (ancestry_failures_all_skipped divergedEnv "widgets" "target-org" demoMd
    (by decide) (by decide) (by decide) (by decide)).2.2.1
    (by decide) (by decide) (by decide)

/-! ### Claim C4 -/

/-- When no pair's processing escapes with an exception, the inner loop
collects one result per target org, in order. -/
theorem sync_org_loop_ok (envOf : String → String → SyncEnv)
    (f : String → String → SyncResult) (repo : String) (orgs : List String)
    (H : ∀ o, (sync_repository (envOf repo o) repo o).outcome = Except.ok (f repo o)) :
    sync_org_loop envOf repo orgs = Except.ok (orgs.map (f repo)) := by
  induction orgs with
  | nil => rfl
  | cons org rest ih => simp [sync_org_loop, H org, ih]

/-- When no pair's processing escapes with an exception, the outer loop
collects the full matrix of results in outer-repository order. -/
theorem sync_repo_loop_ok (envOf : String → String → SyncEnv)
    (f : String → String → SyncResult) (repos orgs : List String)
    (H : ∀ r o, (sync_repository (envOf r o) r o).outcome = Except.ok (f r o)) :
    sync_repo_loop envOf repos orgs = Except.ok (pair_results f repos orgs) := by
  induction repos with
  | nil => rfl
  | cons repo rest ih =>
    simp [sync_repo_loop, sync_org_loop_ok envOf f repo orgs (fun o => H repo o), ih,
      pair_results]

/-- The result matrix has exactly `repositories × target_orgs` entries. -/
theorem pair_results_length (f : String → String → SyncResult)
    (repos orgs : List String) :
    (pair_results f repos orgs).length = repos.length * orgs.length := by
  induction repos with
  | nil => simp [pair_results]
  | cons repo rest ih => simp [pair_results, ih, Nat.succ_mul, Nat.add_comm]

/-- C4 counterexample: a non-404 failure of the target-existence check
(`_repo_exists` re-raises it, and the call sits before the `try` block of
`sync_repository`) aborts the whole batch: `sync_all` escapes with the
exception instead of returning one result per pair (here 2 pairs were
configured and no result list is produced). -/
theorem sync_all_aborts_on_exists_exception :
    sync_all (fun _ _ => existsRaiseEnv)
        ⟨YamlVal.str "acme", ["target-a"], ["repo-a", "repo-b"]⟩ =
      Except.error (PyExc.githubException 403 "API rate limit exceeded")
    ∧ (sync_repository existsRaiseEnv "repo-a" "target-a").outcome =
      Except.error (PyExc.githubException 403 "API rate limit exceeded") := by
  decide

/-- C4 amended: whenever every pair's processing completes with a result
(in particular, no exception escapes the target-existence check),
`sync_all` returns exactly one result per (repository, target org) pair
of the cartesian product, ordered with the outer loop over repositories
and the inner loop over target orgs, so the batch has exactly
`m * n` records; failures inside the per-pair `try` block (and
metadata-read failures) are confined to that pair's record.  An exception
escaping `sync_repository` — e.g. from the existence check — aborts the
batch instead. -/
theorem sync_all_full_matrix (envOf : String → String → SyncEnv) (cfg : Config)
    (f : String → String → SyncResult)
    (H : ∀ r o, (sync_repository (envOf r o) r o).outcome = Except.ok (f r o)) :
    sync_all envOf cfg = Except.ok (pair_results f cfg.repositories cfg.target_orgs)
    ∧ (pair_results f cfg.repositories cfg.target_orgs).length =
        cfg.repositories.length * cfg.target_orgs.length := by
  exact ⟨sync_repo_loop_ok envOf f cfg.repositories cfg.target_orgs H,
    pair_results_length f cfg.repositories cfg.target_orgs⟩

/-- Witness for C4 amended: two repositories and two target orgs with
every step healthy give exactly the 4 results of the matrix. -/
theorem sync_all_full_matrix_witness :
    sync_all (fun _ _ => allOkEnv) ⟨YamlVal.str "acme", ["x", "y"], ["a", "b"]⟩ =
      Except.ok (pair_results
        (fun r o => ⟨r, o, "updated", "Repository updated successfully"⟩)
        ["a", "b"] ["x", "y"])
    ∧ (pair_results (fun r o => ⟨r, o, "updated", "Repository updated successfully"⟩)
        ["a", "b"] ["x", "y"]).length = (["a", "b"] : List String).length *
          (["x", "y"] : List String).length :=
  sync_all_full_matrix (fun _ _ => allOkEnv) ⟨YamlVal.str "acme", ["x", "y"], ["a", "b"]⟩
    (fun r o => ⟨r, o, "updated", "Repository updated successfully"⟩)
    (fun _ _ => rfl)

/-! ### Claim C6 -/

/-- C6 counterexample: with the primary `get_repo` call succeeding, a
failure of the topics lookup (which sits inside the same `try` as the
primary read) does NOT merely omit the topics sub-field — it makes the
whole read return the empty result, contradicting the claim. -/
theorem topics_failure_empties_metadata :
    get_repo_metadata
        ⟨some demoInfo, none, some ⟨[("enabled", "true")]⟩, none, none, none⟩ = none
    ∧ (⟨some demoInfo, none, some ⟨[("enabled", "true")]⟩, none, none,
        none⟩ : GetMetaEnv).get_repo.isSome = true := by
  decide

/-- C6 amended: `_get_repo_metadata` returns the empty result exactly
when the primary `get_repo` call or the topics lookup raises; failures of
the Actions follow-up reads (permissions, selected-actions,
workflow-permissions, workflow-access) only omit their sub-field and
never empty the result. -/
theorem get_repo_metadata_none_iff (env : GetMetaEnv) :
    get_repo_metadata env = none ↔ (env.get_repo = none ∨ env.get_topics = none) := by
  rcases env with ⟨gr, gt, ap, sa, wp, wa⟩
  cases gr <;> cases gt <;> simp [get_repo_metadata]

/-! ### Claim C7 -/

/-- C7 counterexample: for a pair whose target does not exist, the mirror
clone is executed first — here it fails and the pair ends in `error`
while the create step was never attempted, which is impossible under the
claimed order (CREATE_TARGET before MIRROR_CLONE). -/
theorem clone_failure_before_any_creation :
    (sync_repository notExistsCloneFailEnv "widgets" "target-org").trace =
      [Step.get_source_metadata, Step.check_target_exists, Step.make_workspace,
       Step.mirror_clone, Step.remove_workspace]
    ∧ (sync_repository notExistsCloneFailEnv "widgets" "target-org").outcome =
      Except.ok ⟨"widgets", "target-org", "error", "Failed to mirror clone from source"⟩
    ∧ Step.create_target ∉ (sync_repository notExistsCloneFailEnv "widgets" "target-org").trace := by
  decide

/-- C7 amended: for a pair whose target does not exist (sync having
passed the metadata read), the engine executes MIRROR_CLONE first, then
CREATE_TARGET, then PUSH_MIRROR, each step failing the pair with status
`error` when it fails; when all three succeed (and the metadata write-back
returns) the pair ends `created`. -/
theorem create_path_order (env : SyncEnv) (r t : String) (md : Metadata)
    (hmd : get_repo_metadata env.source = some md)
    (hdb : md.default_branch ≠ "")
    (hex : repo_exists env.target_get = Except.ok false) :
    (mirror_clone env.clone = false →
      (sync_repository env r t).trace =
        [Step.get_source_metadata, Step.check_target_exists, Step.make_workspace,
         Step.mirror_clone, Step.remove_workspace]
      ∧ (sync_repository env r t).outcome =
        Except.ok ⟨r, t, "error", "Failed to mirror clone from source"⟩)
    ∧ (mirror_clone env.clone = true → create_repo env.create env.meta md = Except.ok false →
      (sync_repository env r t).trace =
        [Step.get_source_metadata, Step.check_target_exists, Step.make_workspace,
         Step.mirror_clone, Step.create_target, Step.remove_workspace]
      ∧ (sync_repository env r t).outcome =
        Except.ok ⟨r, t, "error", "Failed to create repository in target org"⟩)
    ∧ (mirror_clone env.clone = true → create_repo env.create env.meta md = Except.ok true →
        push_mirror env.push = false →
      (sync_repository env r t).trace =
        [Step.get_source_metadata, Step.check_target_exists, Step.make_workspace,
         Step.mirror_clone, Step.create_target, Step.push_mirror, Step.remove_workspace]
      ∧ (sync_repository env r t).outcome =
        Except.ok ⟨r, t, "error", "Failed to push to target"⟩)
    ∧ (∀ bv, mirror_clone env.clone = true → create_repo env.create env.meta md = Except.ok true →
        push_mirror env.push = true → set_repo_metadata env.meta md = Except.ok bv →
      (sync_repository env r t).trace =
        [Step.get_source_metadata, Step.check_target_exists, Step.make_workspace,
         Step.mirror_clone, Step.create_target, Step.push_mirror, Step.sync_metadata,
         Step.remove_workspace]
      ∧ (sync_repository env r t).outcome =
        Except.ok ⟨r, t, "created", "Repository created and mirrored successfully"⟩) := by
  have hrw := sync_repository_reached env r t md false hmd hdb hex
  rw [hrw]
  refine ⟨?_, ?_, ?_, ?_⟩
  · intro hc
    simp [sync_try_body, hc]
  · intro hc hcr
    simp [sync_try_body, hc, hcr]
  · intro hc hcr hp
    simp [sync_try_body, hc, hcr, hp]
  · intro bv hc hcr hp hs
    simp [sync_try_body, hc, hcr, hp, hs]

/-- Witness for C7 amended with every external step healthy: the pair
ends `created` with the clone-create-push-metadata order. -/
theorem create_path_order_witness :
    (sync_repository notExistsAllOkEnv "widgets" "target-org").trace =
      [Step.get_source_metadata, Step.check_target_exists, Step.make_workspace,
       Step.mirror_clone, Step.create_target, Step.push_mirror, Step.sync_metadata,
       Step.remove_workspace]
    ∧ (sync_repository notExistsAllOkEnv "widgets" "target-org").outcome =
      Except.ok ⟨"widgets", "target-org", "created",
        "Repository created and mirrored successfully"⟩ :=
  (create_path_order notExistsAllOkEnv "widgets" "target-org" demoMd
    (by decide) (by decide) (by decide)).2.2.2 true
    (by decide) (by decide) (by decide) (by decide)

/-! ### Claim C8 -/

/-- The accumulator of `String.intercalate.go` is always a prefix of its
result. -/
theorem intercalate_go_extend (s : String) (l : List String) :
    ∀ acc, ∃ b, String.intercalate.go acc s l = acc ++ b := by
  induction l with
  | nil =>
    intro acc
    exact ⟨"", by simp [String.intercalate.go, String.append_empty]⟩
  | cons a as ih =>
    intro acc
    obtain ⟨b, hb⟩ := ih (acc ++ s ++ a)
    refine ⟨s ++ (a ++ b), ?_⟩
    show String.intercalate.go (acc ++ s ++ a) s as = _
    rw [hb, String.append_assoc, String.append_assoc]

/-- Any member of the joined list occurs inside
`String.intercalate.go`'s result. -/
theorem intercalate_go_mem (s x : String) (l : List String) :
    ∀ acc, x ∈ l → ∃ p q, String.intercalate.go acc s l = p ++ (x ++ q) := by
  induction l with
  | nil =>
    intro acc h
    cases h
  | cons a as ih =>
    intro acc h
    rcases List.mem_cons.mp h with rfl | hxs
    · obtain ⟨b, hb⟩ := intercalate_go_extend s as (acc ++ s ++ x)
      refine ⟨acc ++ s, b, ?_⟩
      show String.intercalate.go (acc ++ s ++ x) s as = _
      rw [hb, String.append_assoc]
    · obtain ⟨p, q, hpq⟩ := ih (acc ++ s ++ a) hxs
      exact ⟨p, q, hpq⟩

/-- Any member of the joined list occurs inside the join. -/
theorem intercalate_mem_split (s x : String) (l : List String) (hx : x ∈ l) :
    ∃ p q, String.intercalate s l = p ++ (x ++ q) := by
  cases l with
  | nil => cases hx
  | cons a as =>
    rcases List.mem_cons.mp hx with rfl | hxs
    · obtain ⟨b, hb⟩ := intercalate_go_extend s as x
      refine ⟨"", b, ?_⟩
      show String.intercalate.go x s as = _
      rw [hb, String.empty_append]
    · obtain ⟨p, q, hpq⟩ := intercalate_go_mem s x as a hxs
      exact ⟨p, q, hpq⟩

/-- C8 counterexample: the debug line echoed by `_run_command` for the
clone invocation of `_mirror_clone` contains the token verbatim (shown
here in `pre ++ token ++ post` form), contradicting the claim that the
logged command line never contains the token. -/
theorem token_logged_in_clone_command :
    run_command_log (mirror_clone_cmd "ghp-SECRET123" "acme" "widgets" "main"
        "/tmp/ws/widgets.git") =
      "Running: git clone --bare --single-branch --branch main https://" ++
        ("ghp-SECRET123" ++ "@github.com/acme/widgets.git /tmp/ws/widgets.git") := by
  decide

/-- C8 amended: `_run_command` echoes the raw joined arguments with no
redaction anywhere, so for every command whose arguments include an
authenticated URL (the `https://<token>@...` shape `_get_auth_url`
produces), the token appears as a substring of the logged line. -/
theorem logged_line_contains_token (token rest : String) (cmd : List String)
    (hmem : ("https://" ++ (token ++ ("@" ++ rest))) ∈ cmd) :
    ∃ pre post, run_command_log cmd = pre ++ (token ++ post) := by
  obtain ⟨p, q, hpq⟩ := intercalate_mem_split " " _ cmd hmem
  refine ⟨("Running: " ++ p) ++ "https://", ("@" ++ rest) ++ q, ?_⟩
  unfold run_command_log
  rw [hpq]
  simp [String.append_assoc]

/-- Witness for C8 amended at the clone invocation built by
`_mirror_clone` for `acme/widgets` with a concrete token. -/
theorem logged_line_contains_token_witness :
    ∃ pre post,
      run_command_log (mirror_clone_cmd "ghp-SECRET123" "acme" "widgets" "main"
          "/tmp/ws/widgets.git") =
        pre ++ ("ghp-SECRET123" ++ post) :=
  logged_line_contains_token "ghp-SECRET123" "github.com/acme/widgets.git"
    (mirror_clone_cmd "ghp-SECRET123" "acme" "widgets" "main" "/tmp/ws/widgets.git")
    (by decide)

/-! ### Claim C9 -/

/-- C9 counterexample: when the source-metadata read fails, the pair ends
in the terminal state `error` without the workspace ever being created or
removed, contradicting the claim that the workspace is created at the
start and removed exactly once at every terminal state. -/
theorem error_terminal_without_workspace :
    (sync_repository srcFailEnv "widgets" "target-org").trace = [Step.get_source_metadata]
    ∧ runStatus (sync_repository srcFailEnv "widgets" "target-org") = some "error"
    ∧ Step.make_workspace ∉ (sync_repository srcFailEnv "widgets" "target-org").trace
    ∧ Step.remove_workspace ∉ (sync_repository srcFailEnv "widgets" "target-org").trace := by
  decide

/-- C9 amended: workspace creation and removal are always balanced and
happen at most once; the workspace is created only after the metadata
read and the existence check succeed, and whenever it is created it is
removed exactly once, as the final step of the run, regardless of which
branch was taken (including caught exceptions).  Terminal `error` results
produced before that point (metadata-read failure, missing default
branch) involve no workspace at all. -/
theorem workspace_balanced_cleanup (env : SyncEnv) (r t : String) :
    ((sync_repository env r t).trace.count Step.make_workspace =
      (sync_repository env r t).trace.count Step.remove_workspace)
    ∧ (sync_repository env r t).trace.count Step.make_workspace ≤ 1
    ∧ (Step.make_workspace ∈ (sync_repository env r t).trace →
        (sync_repository env r t).trace.count Step.remove_workspace = 1
        ∧ (sync_repository env r t).trace.getLast? = some Step.remove_workspace) := by
  cases hmd : get_repo_metadata env.source with
  | none => simp [sync_repository, hmd]
  | some md =>
    by_cases hdb : md.default_branch = ""
    · simp [sync_repository, hmd, hdb]
    · rcases hex : repo_exists env.target_get with e | b
      · unfold sync_repository
        rw [hmd, hex]
        simp [hdb]
      · have hrw := sync_repository_reached env r t md b hmd hdb hex
        rw [hrw]
        obtain ⟨h1, h2⟩ := sync_try_body_no_workspace_steps env r t md b
        have hb1 : (sync_try_body env r t md b).snd.count Step.make_workspace = 0 :=
          List.count_eq_zero.mpr h1
        have hb2 : (sync_try_body env r t md b).snd.count Step.remove_workspace = 0 :=
          List.count_eq_zero.mpr h2
        refine ⟨?_, ?_, ?_⟩
        · simp [List.count_append, hb1, hb2]
        · simp [List.count_append, hb1, hb2]
        · intro _
          refine ⟨by simp [List.count_append, hb1, hb2], ?_⟩
          exact List.getLast?_concat _

/-- Witness for C9 amended at a fully healthy pair: one creation, one
removal, removal last. -/
theorem workspace_balanced_cleanup_witness :
    ((sync_repository allOkEnv "repo-a" "org-x").trace.count Step.make_workspace =
      (sync_repository allOkEnv "repo-a" "org-x").trace.count Step.remove_workspace)
    ∧ (sync_repository allOkEnv "repo-a" "org-x").trace.count Step.make_workspace ≤ 1
    ∧ (Step.make_workspace ∈ (sync_repository allOkEnv "repo-a" "org-x").trace →
        (sync_repository allOkEnv "repo-a" "org-x").trace.count Step.remove_workspace = 1
        ∧ (sync_repository allOkEnv "repo-a" "org-x").trace.getLast? =
          some Step.remove_workspace) :=
  workspace_balanced_cleanup allOkEnv "repo-a" "org-x"

end RepoSync
